import Mathlib

/-!
Verification of the unified-llm provider-adapter core.

This file shallowly embeds the pure data transformations of the repository
(`src/unified_llm/utils.py`, `src/unified_llm/tool_executor.py`,
`src/unified_llm/base.py`, `src/unified_llm/providers/openai_like/provider.py`,
`src/unified_llm/providers/bedrock/provider.py`) and proves or refutes the
specified properties of the stream normalizer, the reasoning extractor, the
tool-call standardizers, message validation, the tool executor and the
function-schema extractor.

Python strings are modelled as `List Char`; JSON-like runtime values
(message dicts, tool-call dicts, response payloads) as the inductive `J`;
raised exceptions as `Option`/`Except` results.  Whitespace stripping is
modelled over the ASCII whitespace characters (the source strips Unicode
whitespace; all inputs of interest are ASCII).
-/

namespace ULLM

/-- Python strings, modelled as lists of characters. -/
abbrev Str := List Char

/-- First occurrence of `tag` inside a string: returns the part before the
occurrence and the part after it.  `none` when `tag` does not occur.  This is
the semantics of Python's `s.find(tag)` / `tag in s` used by the source. -/
def splitFirst (tag : Str) : Str → Option (Str × Str)
  | [] => if tag.isEmpty then some ([], []) else none
  | c :: cs =>
    if tag.isPrefixOf (c :: cs) then some ([], (c :: cs).drop tag.length)
    else
      match splitFirst tag cs with
      | some (pre, suf) => some (c :: pre, suf)
      | none => none

/-- Python's substring test `tag in s`. -/
def hasSub (s tag : Str) : Bool := (splitFirst tag s).isSome

/-- ASCII whitespace, as stripped by Python's `str.strip()`. -/
def isPySpace (c : Char) : Bool :=
  c == ' ' || c == '\t' || c == '\n' || c == '\x0d' || c == '\x0b' || c == '\x0c'

/-- Python's `str.strip()`: drop leading and trailing whitespace. -/
def strip (s : Str) : Str :=
  ((s.dropWhile isPySpace).reverse.dropWhile isPySpace).reverse

/-- Python's `", ".join(xs)`. -/
def join_comma : List Str → Str
  | [] => []
  | [x] => x
  | x :: xs => x ++ ", ".data ++ join_comma xs

/-- Decimal rendering of a natural number (Python `f"{n}"`). -/
def natStr (n : Nat) : Str := (Nat.repr n).data

/-- JSON-like Python runtime values: the message dicts, tool-call dicts and
response payloads the source manipulates.  `null` models Python `None`. -/
inductive J where
  | s (v : Str)
  | i (v : Int)
  | b (v : Bool)
  | null
  | arr (vs : List J)
  | obj (kvs : List (Str × J))

/-- Dict lookup (`d[k]` / `k in d`): first binding of the key. -/
def jLookup (kvs : List (Str × J)) (k : Str) : Option J :=
  (kvs.find? (fun p => p.1 == k)).map (fun p => p.2)

/-- Python `k in d` for a dict. -/
def hasKey (kvs : List (Str × J)) (k : Str) : Bool := (jLookup kvs k).isSome

/-- Python `d.get(k, default)`. -/
def jGet (kvs : List (Str × J)) (k : Str) (default : J) : J :=
  (jLookup kvs k).getD default

/-- Python truthiness of a value (`if x:`). -/
def jTruthy : J → Bool
  | .s v => !v.isEmpty
  | .i v => if v = 0 then false else true
  | .b v => v
  | .null => false
  | .arr vs => !vs.isEmpty
  | .obj kvs => !kvs.isEmpty

/-- View a wire value that is expected to be a string-or-null field: strings
map to `some`, `null` (and the unused non-string cases) to `none`. -/
def asOptStr : J → Option Str
  | .s v => some v
  | _ => none

/-- Whether a Python value is hashable (usable with `x in some_dict`). -/
def isHashable : J → Bool
  | .arr _ => false
  | .obj _ => false
  | _ => true

/-- JSON string escaping as produced by `json.dumps` for the characters the
source can emit (quote and backslash). -/
def jsonEscape (s : Str) : Str :=
  s.flatMap (fun c => if c == '"' || c == '\\' then ['\\', c] else [c])

mutual
/-- Model of Python's `json.dumps` with default separators, used by the
Bedrock tool-call standardizer to re-encode a structured `input` object. -/
def jdump : J → Str
  | .s v => '"' :: (jsonEscape v ++ ['"'])
  | .i v => (toString v).data
  | .b true => "true".data
  | .b false => "false".data
  | .null => "null".data
  | .arr vs => '[' :: (jdumpArr vs ++ [']'])
  | .obj kvs => '\x7b' :: (jdumpObj kvs ++ ['\x7d'])

def jdumpArr : List J → Str
  | [] => []
  | [v] => jdump v
  | v :: vs => jdump v ++ ", ".data ++ jdumpArr vs

def jdumpObj : List (Str × J) → Str
  | [] => []
  | [(k, v)] => '"' :: (jsonEscape k ++ "\": ".data ++ jdump v)
  | (k, v) :: kvs =>
    '"' :: (jsonEscape k ++ "\": ".data ++ jdump v ++ ", ".data ++ jdumpObj kvs)
end

/-- Python `str()` of a value, as interpolated into the source's f-strings
(strings unquoted at top level, `True`/`False`/`None` spelled Python-style).
Containers use their JSON-ish rendering; the theorems below never depend on
the container case. -/
def pyStr : J → Str
  | .s v => v
  | .i v => (toString v).data
  | .b true => "True".data
  | .b false => "False".data
  | .null => "None".data
  | v => jdump v

/-! ### A model of `json.loads`

The tool executor parses tool-call arguments with Python's `json.loads`.
This is a standard-library collaborator, not repository code; it is modelled
here by an executable recursive-descent parser over the JSON fragment the
adapters exchange (objects, arrays, strings with the common escapes, integer
numbers, booleans, null).  Inputs outside this fragment (floats, `\u`
escapes) report a parse error; no theorem below depends on those corners. -/

/-- Skip JSON whitespace. -/
def skipWs (s : Str) : Str :=
  s.dropWhile (fun c => c == ' ' || c == '\n' || c == '\t' || c == '\x0d')

/-- Parse the remainder of a JSON string literal (after the opening quote). -/
def json_parse_string : Str → Except Str (Str × Str)
  | [] => .error "Unterminated string".data
  | '"' :: rest => .ok ([], rest)
  | '\\' :: c :: rest =>
    match
      (if c == '"' then some '"'
       else if c == '\\' then some '\\'
       else if c == '/' then some '/'
       else if c == 'n' then some '\n'
       else if c == 't' then some '\t'
       else if c == 'r' then some '\x0d'
       else if c == 'b' then some '\x08'
       else if c == 'f' then some '\x0c'
       else none) with
    | some e =>
      match json_parse_string rest with
      | .ok (v, r) => .ok (e :: v, r)
      | .error m => .error m
    | none => .error "Invalid \\escape".data
  | ['\\'] => .error "Unterminated string".data
  | c :: rest =>
    match json_parse_string rest with
    | .ok (v, r) => .ok (c :: v, r)
    | .error m => .error m

/-- Parse a JSON integer literal (the numeric fragment this model supports). -/
def json_parse_number (s : Str) : Except Str (J × Str) :=
  let (neg, s1) := match s with
    | '-' :: r => (true, r)
    | r => (false, r)
  let digits := s1.takeWhile (fun c => c.isDigit)
  let rest := s1.dropWhile (fun c => c.isDigit)
  if digits.isEmpty then .error "Expecting value".data
  else
    match rest with
    | '.' :: _ => .error "float literals are outside the modelled fragment".data
    | 'e' :: _ => .error "float literals are outside the modelled fragment".data
    | 'E' :: _ => .error "float literals are outside the modelled fragment".data
    | _ =>
      let n : Nat := digits.foldl (fun acc c => acc * 10 + (c.toNat - '0'.toNat)) 0
      .ok (J.i (if neg then -(n : Int) else (n : Int)), rest)

mutual
/-- Parse one JSON value (fuel-indexed to bound nesting). -/
def json_parse_value : Nat → Str → Except Str (J × Str)
  | 0, _ => .error "Nesting too deep".data
  | fuel + 1, s =>
    match skipWs s with
    | [] => .error "Expecting value".data
    | '"' :: rest =>
      match json_parse_string rest with
      | .ok (v, r) => .ok (J.s v, r)
      | .error m => .error m
    | '\x7b' :: rest => json_parse_obj fuel rest
    | '[' :: rest => json_parse_arr fuel rest
    | 't' :: 'r' :: 'u' :: 'e' :: rest => .ok (J.b true, rest)
    | 'f' :: 'a' :: 'l' :: 's' :: 'e' :: rest => .ok (J.b false, rest)
    | 'n' :: 'u' :: 'l' :: 'l' :: rest => .ok (J.null, rest)
    | other => json_parse_number other

/-- Parse a JSON object body (after the opening brace). -/
def json_parse_obj : Nat → Str → Except Str (J × Str)
  | 0, _ => .error "Nesting too deep".data
  | fuel + 1, s =>
    match skipWs s with
    | '\x7d' :: rest => .ok (J.obj [], rest)
    | '"' :: rest =>
      match json_parse_string rest with
      | .error m => .error m
      | .ok (k, r1) =>
        match skipWs r1 with
        | ':' :: r2 =>
          match json_parse_value fuel r2 with
          | .error m => .error m
          | .ok (v, r3) => json_parse_obj_more fuel k v r3
        | _ => .error "Expecting colon".data
    | _ => .error "Expecting property name".data

/-- Parse the continuation of a JSON object after one `key: value` member. -/
def json_parse_obj_more : Nat → Str → J → Str → Except Str (J × Str)
  | 0, _, _, _ => .error "Nesting too deep".data
  | fuel + 1, k, v, s =>
    match skipWs s with
    | '\x7d' :: rest => .ok (J.obj [(k, v)], rest)
    | ',' :: rest =>
      match json_parse_obj fuel rest with
      | .ok (J.obj kvs, r) => .ok (J.obj ((k, v) :: kvs), r)
      | .ok _ => .error "Expecting property name".data
      | .error m => .error m
    | _ => .error "Expecting comma".data

/-- Parse a JSON array body (after the opening bracket). -/
def json_parse_arr : Nat → Str → Except Str (J × Str)
  | 0, _ => .error "Nesting too deep".data
  | fuel + 1, s =>
    match skipWs s with
    | ']' :: rest => .ok (J.arr [], rest)
    | _ =>
      match json_parse_value fuel (skipWs s) with
      | .error m => .error m
      | .ok (v, r) => json_parse_arr_more fuel v r

/-- Parse the continuation of a JSON array after one element. -/
def json_parse_arr_more : Nat → J → Str → Except Str (J × Str)
  | 0, _, _ => .error "Nesting too deep".data
  | fuel + 1, v, s =>
    match skipWs s with
    | ']' :: rest => .ok (J.arr [v], rest)
    | ',' :: rest =>
      match json_parse_arr fuel rest with
      | .ok (J.arr vs, r) => .ok (J.arr (v :: vs), r)
      | .ok _ => .error "Expecting value".data
      | .error m => .error m
    | _ => .error "Expecting comma".data
end

/-- Model of `json.loads`: errors are `JSONDecodeError` messages. -/
def json_loads (s : Str) : Except Str J :=
  match json_parse_value (2 * s.length + 2) s with
  | .error m => .error m
  | .ok (v, rest) => if (skipWs rest).isEmpty then .ok v else .error "Extra data".data

/-! ### `utils.py`: `execute_function_call` and `validate_messages` -/

/-- A Python exception raised by calling a registered tool with unpacked
keyword arguments: `TypeError` (bad argument binding) vs. any other
exception, each carrying its `str(e)` rendering. -/
inductive PyExc where
  | typeErr (msg : Str)
  | otherErr (msg : Str)

/-- Model of a registered Python tool: the call `func(**args_dict)` applied
to the decoded arguments, returning either a raised exception or the
`str()`-coerced result. -/
def PyTool := J → Except PyExc Str

/-- `utils.execute_function_call(func, arguments)` (utils.py:150-186):
parse JSON-string arguments, invoke the tool, coerce the result to a string;
errors are the raised `ToolExecutionError`'s message. -/
def execute_function_call (f : PyTool) (arguments : J) : Except Str Str :=
  let run : J → Except Str Str := fun d =>
    match f d with
    | .ok r => .ok r
    | .error (.typeErr m) => .error ("Invalid function arguments: ".data ++ m)
    | .error (.otherErr m) => .error ("Function execution failed: ".data ++ m)
  match arguments with
  | J.s s =>
    match json_loads s with
    | .error e => .error ("Invalid JSON arguments: ".data ++ e)
    | .ok d => run d
  | other => run other

/-- The `valid_roles` set of `validate_messages`. -/
def validRoles : List Str :=
  ["system".data, "user".data, "assistant".data, "tool".data]

/-- Validation of one content block of a multimodal message
(utils.py:109-126).  `i`, `j` index message and block for the error text. -/
def validate_block (i j : Nat) (b : J) : Except Str Unit :=
  match b with
  | J.obj bkvs =>
    if !(hasKey bkvs "type".data) then
      .error ("Message ".data ++ natStr i ++ ", content block ".data ++ natStr j
        ++ " missing \x27type\x27 field".data)
    else
      match jGet bkvs "type".data J.null with
      | J.s t =>
        if t == "text".data then
          if hasKey bkvs "text".data then .ok ()
          else .error ("Message ".data ++ natStr i ++ ", content block ".data ++ natStr j
            ++ " of type \x27text\x27 missing \x27text\x27 field".data)
        else if t == "image".data then
          if hasKey bkvs "image_data".data then .ok ()
          else .error ("Message ".data ++ natStr i ++ ", content block ".data ++ natStr j
            ++ " of type \x27image\x27 missing \x27image_data\x27 field".data)
        else
          .error ("Message ".data ++ natStr i ++ ", content block ".data ++ natStr j
            ++ " has unsupported type \x27".data ++ t ++ "\x27".data)
      | other =>
        .error ("Message ".data ++ natStr i ++ ", content block ".data ++ natStr j
          ++ " has unsupported type \x27".data ++ pyStr other ++ "\x27".data)
  | _ =>
    .error ("Message ".data ++ natStr i ++ ", content block ".data ++ natStr j
      ++ " must be a dictionary".data)

/-- Validate all content blocks of a message in order. -/
def validate_blocks (i : Nat) : Nat → List J → Except Str Unit
  | _, [] => .ok ()
  | j, b :: rest =>
    match validate_block i j b with
    | .error e => .error e
    | .ok _ => validate_blocks i (j + 1) rest

/-- Validation of one message (the body of the loop in utils.py:89-133). -/
def validate_message (i : Nat) (m : J) : Except Str Unit :=
  match m with
  | J.obj kvs =>
    if !(hasKey kvs "role".data) then
      .error ("Message ".data ++ natStr i ++ " missing \x27role\x27 field".data)
    else if !(hasKey kvs "content".data) then
      .error ("Message ".data ++ natStr i ++ " missing \x27content\x27 field".data)
    else
      match jGet kvs "role".data J.null with
      | J.s role =>
        if !(validRoles.any (fun v => v == role)) then
          .error ("Message ".data ++ natStr i ++ " has invalid role \x27".data ++ role
            ++ "\x27. Must be one of: \x7b[set repr]\x7d".data)
        else
          let contentCheck : Except Str Unit :=
            match jGet kvs "content".data J.null with
            | J.s _ => .ok ()
            | J.arr blocks => validate_blocks i 0 blocks
            | _ =>
              .error ("Message ".data ++ natStr i
                ++ " content must be string or list of content blocks".data)
          match contentCheck with
          | .error e => .error e
          | .ok _ =>
            if role == "tool".data then
              if hasKey kvs "tool_call_id".data then .ok ()
              else .error ("Message ".data ++ natStr i
                ++ " with role \x27tool\x27 missing \x27tool_call_id\x27 field".data)
            else .ok ()
      | other =>
        -- a hashable non-string role is never in `valid_roles`
        .error ("Message ".data ++ natStr i ++ " has invalid role \x27".data ++ pyStr other
          ++ "\x27. Must be one of: \x7b[set repr]\x7d".data)
  | _ => .error ("Message ".data ++ natStr i ++ " must be a dictionary".data)

/-- Validate messages starting at index `i`. -/
def validate_messages_from (i : Nat) : List J → Except Str Unit
  | [] => .ok ()
  | m :: rest =>
    match validate_message i m with
    | .error e => .error e
    | .ok _ => validate_messages_from (i + 1) rest

/-- `utils.validate_messages(messages)` (utils.py:72-133): errors are the
raised `ValidationError`'s message.  The invalid-role error interpolates the
Python `set` repr, whose ordering is hash-seed dependent in the source; it is
rendered canonically here (no theorem depends on that branch). -/
def validate_messages : J → Except Str Unit
  | J.arr [] => .error "Messages list cannot be empty".data
  | J.arr (m :: rest) => validate_messages_from 0 (m :: rest)
  | _ => .error "Messages must be a list".data

/-! ### `tool_executor.py`: `ToolExecutor` -/

namespace ToolExecutor

/-- Lookup in the executor's `tools_by_name` registry. -/
def lookup_tool (reg : List (Str × PyTool)) (nm : Str) : Option PyTool :=
  ((reg.find? (fun p => p.1 == nm))).map (fun p => p.2)

/-- The tail of `execute` past its structural checks: registry lookup,
invocation via `execute_function_call`, and the `except` handlers that turn
a raised `ToolExecutionError` into the `"Tool execution error: ..."` string
(tool_executor.py:64-77). -/
def execute_resolved (reg : List (Str × PyTool)) (nm : Str) (tool_args : J) : Str :=
  match lookup_tool reg nm with
  | none =>
    "Error: Tool \x27".data ++ nm ++ "\x27 not found. Available tools: ".data
      ++ join_comma (reg.map Prod.fst)
  | some f =>
    match execute_function_call f tool_args with
    | .ok r => r
    | .error e => "Tool execution error: ".data ++ e

/-- `ToolExecutor.execute(tool_call)` (tool_executor.py:30-79).  The source
wraps its whole body in `try/except` handlers that convert every raised
exception into an error string, so the model is a total function into
strings — the executor never propagates an exception.  Unhashable tool names
(dict/list) raise inside the `try` and surface via the broad handler. -/
def execute (reg : List (Str × PyTool)) (tool_call : J) : Str :=
  match tool_call with
  | J.obj kvs =>
    let tool_name := jGet kvs "name".data J.null
    let tool_args := jGet kvs "arguments".data (J.s "\x7b\x7d".data)
    let tool_id := jGet kvs "id".data J.null
    if !(jTruthy tool_name) then "Error: Missing tool name in tool call".data
    else if !(jTruthy tool_id) then "Error: Missing tool call ID".data
    else
      match tool_name with
      | J.s nm => execute_resolved reg nm tool_args
      | other =>
        if isHashable other then
          -- a truthy hashable non-string name is never a registry key
          "Error: Tool \x27".data ++ pyStr other ++ "\x27 not found. Available tools: ".data
            ++ join_comma (reg.map Prod.fst)
        else
          "Unexpected error executing tool \x27".data ++ pyStr other
            ++ "\x27: unhashable type".data
  | _ => "Error: Tool call must be a dictionary".data

/-- `ToolExecutor.execute_all(tool_calls)` (tool_executor.py:81-113).  The
per-item `tool_call.get("id", "unknown")` is called outside `execute`'s
protection, so a non-dict entry raises `AttributeError` out of the loop;
that raise is the `.error` case. -/
def execute_all (reg : List (Str × PyTool)) : List J → Except Str (List J)
  | [] => .ok []
  | tc :: rest =>
    match tc with
    | J.obj kvs =>
      match execute_all reg rest with
      | .ok msgs =>
        .ok (J.obj [("role".data, J.s "tool".data),
                    ("content".data, J.s (execute reg tc)),
                    ("tool_call_id".data, jGet kvs "id".data (J.s "unknown".data))] :: msgs)
      | .error e => .error e
    | _ => .error "AttributeError: object has no attribute \x27get\x27".data

end ToolExecutor

/-- Whether a value is a Python dict. -/
def isObj : J → Bool
  | .obj _ => true
  | _ => false

/-- The tool-result message `execute_all` builds for one (dict) tool call. -/
def tool_result_msg (reg : List (Str × PyTool)) (tc : J) : J :=
  J.obj [("role".data, J.s "tool".data),
         ("content".data, J.s (ToolExecutor.execute reg tc)),
         ("tool_call_id".data,
          match tc with
          | J.obj kvs => jGet kvs "id".data (J.s "unknown".data)
          | _ => J.null)]

/-! ### Tool-call standardizers

`OpenAILike._standardize_tool_calls` (providers/openai_like/provider.py:112-158)
and `Bedrock._standardize_tool_calls` (providers/bedrock/provider.py:123-152).
Both run outside any `try`, so a raised `KeyError`/`AttributeError`/`TypeError`
propagates; raises are modelled as `none`. -/

namespace OpenAILike

/-- One pass of the loop body over the tool calls. -/
def standardize_go : List J → Option (List J)
  | [] => some []
  | tc :: rest =>
    let step : Option J :=
      match tc with
      | J.obj kvs =>
        if hasKey kvs "function".data then
          -- full OpenAI format: tool_call["id"], ["function"]["name"/"arguments"]
          match jLookup kvs "id".data, jLookup kvs "function".data with
          | some idv, some (J.obj fkvs) =>
            match jLookup fkvs "name".data, jLookup fkvs "arguments".data with
            | some nv, some av =>
              some (J.obj [("id".data, idv), ("name".data, nv), ("arguments".data, av)])
            | _, _ => none  -- KeyError
          | _, _ => none    -- KeyError / subscripting a non-dict
        else some tc        -- already-standardized format: pass through
      | other => some other -- non-dict entries pass through
    match step, standardize_go rest with
    | some v, some vs => some (v :: vs)
    | _, _ => none

/-- `OpenAILike._standardize_tool_calls(raw_tool_calls)`. -/
def standardize_tool_calls (raw : List J) : Option (List J) :=
  if raw.isEmpty then some [] else standardize_go raw

end OpenAILike

namespace Bedrock

/-- The loop of `Bedrock._standardize_tool_calls`; `n` is
`len(standardized)`, used for the generated placeholder id.  Entries without
a `toolUse` key are skipped; the membership test `'toolUse' in tool_call` is
a substring test on strings, a list-membership test on lists, and raises
`TypeError` on other non-dicts; a present non-dict `toolUse` value raises
`AttributeError` at `.get`. -/
def standardize_go : List J → Nat → Option (List J)
  | [], _ => some []
  | tc :: rest, n =>
    match tc with
    | J.obj kvs =>
      match jLookup kvs "toolUse".data with
      | some (J.obj tkvs) =>
        let idv := jGet tkvs "toolUseId".data (J.s ("call_".data ++ natStr n))
        let nv := jGet tkvs "name".data J.null
        let av0 := jGet tkvs "input".data (J.obj [])
        let av := match av0 with
          | J.obj o => J.s (jdump (J.obj o))  -- json.dumps when input is a dict
          | v => v
        match standardize_go rest (n + 1) with
        | some l =>
          some (J.obj [("id".data, idv), ("name".data, nv), ("arguments".data, av)] :: l)
        | none => none
      | some _ => none
      | none => standardize_go rest n
    | J.s sv => if hasSub sv "toolUse".data then none else standardize_go rest n
    | J.arr vs =>
      if vs.any (fun v => match v with | J.s w => w == "toolUse".data | _ => false)
      then none else standardize_go rest n
    | _ => none

/-- `Bedrock._standardize_tool_calls(raw_tool_calls)`. -/
def standardize_tool_calls (raw : List J) : Option (List J) :=
  standardize_go raw 0

end Bedrock

/-! ### `OpenAILike._extract_reasoning_content`
(providers/openai_like/provider.py:302-367) -/

/-- The tag patterns of Method 3, in priority order: for each, regex
`<tag>(.*?)</tag>` with `re.DOTALL`. -/
def reasoningPatterns : List (Str × Str) :=
  [("<think>".data, "</think>".data),
   ("<thinking>".data, "</thinking>".data),
   ("<reasoning>".data, "</reasoning>".data),
   ("<analysis>".data, "</analysis>".data)]

/-- `re.search` for the lazy pattern `op(.*?)cl` (DOTALL): the leftmost
match is at the first occurrence of `op`, with the shortest interior up to
the next occurrence of `cl`.  For the tag literals above, an occurrence of
`cl` after a later `op` is also after every earlier `op`, so searching from
the first `op` is exact.  Returns (before, interior, after). -/
def reSearch (op cl s : Str) : Option (Str × Str × Str) :=
  match splitFirst op s with
  | none => none
  | some (pre, rest) =>
    match splitFirst cl rest with
    | none => none
    | some (mid, suf) => some (pre, mid, suf)

/-- `re.sub(pattern, '', s)`: remove every match, scanning left to right and
continuing after each removed match.  The fuel strictly exceeds any possible
number of matches (each match consumes at least one character). -/
def reSubFuel (op cl : Str) : Nat → Str → Str
  | 0, s => s
  | fuel + 1, s =>
    match reSearch op cl s with
    | none => s
    | some (pre, _, suf) => pre ++ reSubFuel op cl fuel suf

/-- `re.sub(pattern, '', s)` for the lazy tag pattern. -/
def reSub (op cl s : Str) : Str := reSubFuel op cl (s.length + 1) s

/-- Method 3 of the extractor: try each tag pattern in order; on the first
match return `(final_content, reasoning)` as
`(re.sub(pattern, '', content).strip(), match.group(1).strip())`. -/
def try_patterns : List (Str × Str) → Str → Option (Str × Str)
  | [], _ => none
  | (op, cl) :: rest, s =>
    match reSearch op cl s with
    | some (_, mid, _) => some (strip (reSub op cl s), strip mid)
    | none => try_patterns rest s

/-- Methods 3 and 4 of the extractor, on a string `content` (provider.py:
335-367): the `if not full_content` short-circuit, the tag-pattern pass, and
the o1 reasoning-token fallthrough — whose two branches both return
`(full_content, None)`, exactly as the source's do. -/
def extract_from_content (full_content : Str) : Option Str × Option Str :=
  if full_content.isEmpty then (some [], none)  -- `if not full_content`
  else
    match try_patterns reasoningPatterns full_content with
    | some (finalC, reasoningC) => (some finalC, some reasoningC)
    | none => (some full_content, none)

/-- The extractor's work on the first choice's message dict (provider.py:
321-367): Method 1 (`reasoning_content`), Method 2 (`thinking`), then the
content-based methods.  A present-but-falsy non-string `content` (e.g.
`None`) takes the `if not full_content` return; a truthy non-string raises
at `re.search` (modelled `none`). -/
def extract_from_message (mkvs : List (Str × J)) : Option (Option Str × Option Str) :=
  if hasKey mkvs "reasoning_content".data then
    -- Method 1: native reasoning_content field (vLLM)
    some (asOptStr (jGet mkvs "content".data (J.s [])),
          asOptStr (jGet mkvs "reasoning_content".data J.null))
  else if hasKey mkvs "thinking".data then
    -- Method 2: thinking field (some providers)
    some (asOptStr (jGet mkvs "content".data (J.s [])),
          asOptStr (jGet mkvs "thinking".data J.null))
  else
    match jGet mkvs "content".data (J.s []) with
    | J.s full_content => some (extract_from_content full_content)
    | v => if !(jTruthy v) then some (some [], none) else none

/-- `OpenAILike._extract_reasoning_content(response)`: returns
`(final_content, reasoning_content)`; the first component is `none` when the
source returns Python `None` there (a present-but-null `content`), and the
overall `none` models a raised exception (malformed payload shapes). -/
def extract_reasoning_content (response : J) : Option (Option Str × Option Str) :=
  match response with
  | J.obj rkvs =>
    let choicesJ := jLookup rkvs "choices".data
    if choicesJ.isNone || !(jTruthy (choicesJ.getD J.null)) then
      some (some [], none)  -- return "", None
    else
      match choicesJ with
      | some (J.arr (choice :: _)) =>
        match choice with
        | J.obj chkvs =>
          match jGet chkvs "message".data (J.obj []) with
          | J.obj mkvs => extract_from_message mkvs
          | _ => none  -- `'reasoning_content' in message` on a non-dict raises
        | _ => none
      | _ => none  -- a truthy non-list `choices` fails at indexing/`.get`
  | _ => none

/-- A response whose single choice's message carries only `content` —
the shape exercising pattern-based extraction. -/
def mkSimpleResponse (content : Str) : J :=
  J.obj [("choices".data,
          J.arr [J.obj [("message".data, J.obj [("content".data, J.s content)])]])]

/-! ### `OpenAILike._parse_stream_response`
(providers/openai_like/provider.py:416-500) -/

/-- The adapter-instance state the stream parser reads and writes:
`self._in_reasoning_mode`, initialized to `False` in `__init__`
(provider.py:69) and mutated while parsing chunks.  It lives on the shared
adapter object, not on the individual stream call. -/
structure OpenAILikeState where
  inReasoningMode : Bool
deriving DecidableEq

/-- The unified `ChatStreamResponse` chunk (models.py), without the
metadata mapping (raw-chunk echo and provider tags, unused by any claim).
`toolCalls = []` models the source's `None`. -/
structure StreamResp where
  delta : Str
  reasoningDelta : Option Str
  isReasoningComplete : Bool
  isComplete : Bool
  toolCalls : List J

/-- The opening tags the normalizer looks for inside a delta. -/
def openingTags : List Str :=
  ["<think>".data, "<thinking>".data, "<reasoning>".data, "<analysis>".data]

/-- The closing tags the normalizer looks for inside a delta. -/
def closingTags : List Str :=
  ["</think>".data, "</thinking>".data, "</reasoning>".data, "</analysis>".data]

/-- `OpenAILike._parse_stream_response(chunk, enable_reasoning)`: parses one
OpenAI-style stream chunk, reading and writing the adapter-held
`_in_reasoning_mode` flag.  `none` models a raised exception (malformed
chunk shapes or a `KeyError` inside tool-call standardization). -/
def parse_stream_response (st : OpenAILikeState) (chunk : J) (enable_reasoning : Bool) :
    Option (OpenAILikeState × StreamResp) :=
  match chunk with
  | J.obj ckvs =>
    let choicesJ := jGet ckvs "choices".data J.null
    if !(jTruthy choicesJ) then
      some (st, { delta := [], reasoningDelta := none, isReasoningComplete := false,
                  isComplete := false, toolCalls := [] })
    else
      match choicesJ with
      | J.arr (choice :: _) =>
        match choice with
        | J.obj chkvs =>
          match jGet chkvs "delta".data (J.obj []) with
          | J.obj dkvs =>
            let content_delta0 : Str :=
              match jGet dkvs "content".data J.null with
              | J.s v => v
              | _ => []  -- `delta.get("content") or ""`
            let raw_tool_calls : List J :=
              match jGet dkvs "tool_calls".data J.null with
              | J.arr vs => vs
              | _ => []   -- `raw_tool_calls or []`
            match OpenAILike.standardize_tool_calls raw_tool_calls with
            | none => none
            | some std_tool_calls =>
              let step : OpenAILikeState × Str × Option Str × Bool :=
                if enable_reasoning then
                  let rd0 : Option Str :=
                    match jGet dkvs "reasoning_content".data J.null with
                    | J.s v => some v
                    | _ => none
                  let rd1 : Option Str :=
                    match rd0 with
                    | some v => some v
                    | none =>
                      match jGet dkvs "thinking".data J.null with
                      | J.s v => some v
                      | _ => none
                  if !content_delta0.isEmpty && rd1.isNone then
                    let openingHit := openingTags.any (fun t => hasSub content_delta0 t)
                    let mode1 := if openingHit then true else st.inReasoningMode
                    let closingHit := closingTags.any (fun t => hasSub content_delta0 t)
                    let mode2 := if closingHit then false else mode1
                    if mode2 then
                      (⟨mode2⟩, [], some content_delta0, closingHit)
                    else
                      (⟨mode2⟩, content_delta0, none, closingHit)
                  else (st, content_delta0, rd1, false)
                else (st, content_delta0, none, false)
              let finishReason := jGet chkvs "finish_reason".data J.null
              some (step.1,
                { delta := step.2.1,
                  reasoningDelta := step.2.2.1,
                  isReasoningComplete := step.2.2.2,
                  isComplete := !(finishReason matches J.null),
                  toolCalls := std_tool_calls })
          | _ => none  -- `delta.get(...)` on a non-dict raises
        | _ => none    -- `choice.get(...)` on a non-dict raises
      | _ => none      -- indexing a truthy non-list `choices` raises
  | _ => none

/-- An OpenAI-style content-delta stream chunk. -/
def mkContentChunk (s : Str) : J :=
  J.obj [("choices".data,
          J.arr [J.obj [("delta".data, J.obj [("content".data, J.s s)])]])]

/-- Feed a sequence of chunks through `parse_stream_response` with reasoning
enabled, threading the adapter-held state exactly as consecutive
`chat_stream` iterations do. -/
def runStream (st : OpenAILikeState) : List J → Option (OpenAILikeState × List StreamResp)
  | [] => some (st, [])
  | c :: cs =>
    match parse_stream_response st c true with
    | none => none
    | some (st1, r) =>
      match runStream st1 cs with
      | none => none
      | some (st2, rs) => some (st2, r :: rs)

/-- Concatenation of the reasoning deltas of a chunk sequence. -/
def concatReasoning (rs : List StreamResp) : Str :=
  rs.foldr (fun r acc => (r.reasoningDelta.getD []) ++ acc) []

/-- Concatenation of the content deltas of a chunk sequence. -/
def concatContent (rs : List StreamResp) : Str :=
  rs.foldr (fun r acc => r.delta ++ acc) []

/-! ### `utils.extract_function_schema` (utils.py:9-69)

A Python callable is modelled by its introspectable surface: name, cleaned
docstring (`inspect.getdoc`, `none` when there is no docstring) and
parameter list.  An annotation is modelled by what the extractor inspects:
equality with `str`/`int`/`float`/`bool`, else the `__origin__` attribute
(present on parameterized generics such as `List[int]` / `Dict[str, int]`),
else a plain class without `__origin__`. -/

/-- The `__origin__` of a parameterized generic annotation. -/
inductive PyAnnOrigin where
  | listO
  | dictO
  | otherO
deriving DecidableEq

/-- A parameter annotation, as inspected by the extractor. -/
inductive PyAnn where
  | strA
  | intA
  | floatA
  | boolA
  | generic (origin : PyAnnOrigin)
  | plain
deriving DecidableEq

/-- An introspectable parameter: name, resolved type hint (`none` when
unannotated or when `get_type_hints` failed), and whether it has a default
value. -/
structure PyParam where
  name : Str
  hint : Option PyAnn
  hasDefault : Bool
deriving DecidableEq

/-- An introspectable callable. -/
structure PyFunc where
  name : Str
  doc : Option Str
  params : List PyParam
deriving DecidableEq

/-- One property of the generated parameter schema. -/
structure ParamInfo where
  type : Str
  description : Str
deriving DecidableEq

/-- The generated tool schema. -/
structure FuncSchema where
  name : Str
  description : Str
  properties : List (Str × ParamInfo)
  required : List Str
deriving DecidableEq

/-- The type-mapping chain of the extractor's loop body (utils.py:40-53):
default `"string"`, overridden by the recognized annotations. -/
def annotation_type : Option PyAnn → Str
  | none => "string".data
  | some .strA => "string".data
  | some .intA => "integer".data
  | some .floatA => "number".data
  | some .boolA => "boolean".data
  | some (.generic .listO) => "array".data
  | some (.generic .dictO) => "object".data
  | some (.generic .otherO) => "string".data
  | some .plain => "string".data

/-- `utils.extract_function_schema(func)`. -/
def extract_function_schema (f : PyFunc) : FuncSchema :=
  let docstring : Str :=
    match f.doc with
    | some d => if d.isEmpty then "Function ".data ++ f.name else d
    | none => "Function ".data ++ f.name
  let ps := f.params.filter (fun p => !(p.name == "self".data))
  { name := f.name,
    description := docstring,
    properties := ps.map (fun p =>
      (p.name, { type := annotation_type p.hint,
                 description := "Parameter ".data ++ p.name })),
    required := (ps.filter (fun p => !p.hasDefault)).map PyParam.name }

/-! ### `base.py`: `BaseProvider.chat` / `chat_stream` (base.py:49-157)

The provider-specific abstract methods are parameters (`ProviderOps`), with
the adapter's stream-parsing state abstracted as `σ`.  The model is
instrumented with an event trace recording each provider request that is
prepared or executed, so that "validation happens before any request" is a
statement about the trace. -/

/-- Exceptions surfaced by the chat pipeline. -/
inductive PyErr where
  | validationError (msg : Str)
  | providerError (msg : Str)
  | pyException
  | recursionLimit

/-- Trace events: a provider request was prepared / executed. -/
inductive Ev where
  | prepared
  | executed
deriving DecidableEq

/-- The unified `ChatResponse` (models.py), without the metadata mapping.
`toolCalls = []` models `None`. -/
structure ChatResp where
  content : Str
  reasoningContent : Option Str
  reasoningTokens : Option Int
  toolCalls : List J

/-- The provider-specific operations `BaseProvider` dispatches to, over an
adapter-state type `σ`. -/
structure ProviderOps (σ : Type) where
  prepareRequest : J → Bool → Bool → J
  executeRequest : J → Except Str J
  executeStreamRequest : J → Except Str (List J)
  parseResponse : J → Bool → Option ChatResp
  parseStream : σ → J → Bool → Option (σ × StreamResp)
  toolsByName : List (Str × PyTool)

/-- The conversation `_handle_tool_calls` (base.py:107-157) builds before
re-entering `chat`: original messages, then the assistant message carrying
the tool calls, then one tool-result message per call. -/
def handle_tool_calls_conversation (toolsByName : List (Str × PyTool))
    (original : List J) (resp : ChatResp) : List J :=
  let assistantMsg := J.obj
    (("role".data, J.s "assistant".data) :: ("content".data, J.s resp.content) ::
     (if resp.toolCalls.isEmpty then [] else [("tool_calls".data, J.arr resp.toolCalls)]))
  let toolMsgs := resp.toolCalls.map (fun tc =>
    let nmJ := match tc with | J.obj kvs => jGet kvs "name".data J.null | _ => J.null
    let argsJ := match tc with
      | J.obj kvs => jGet kvs "arguments".data (J.s "\x7b\x7d".data)
      | _ => J.null
    let idJ := match tc with | J.obj kvs => jGet kvs "id".data J.null | _ => J.null
    let result : Str :=
      match nmJ with
      | J.s n =>
        match ToolExecutor.lookup_tool toolsByName n with
        | none => "Error: Tool \x27".data ++ n ++ "\x27 not found".data
        | some f =>
          match execute_function_call f argsJ with
          | .ok r => r
          | .error e => "Error executing ".data ++ n ++ ": ".data ++ e
      | other => "Error: Tool \x27".data ++ pyStr other ++ "\x27 not found".data
    J.obj [("role".data, J.s "tool".data), ("content".data, J.s result),
           ("tool_call_id".data, idJ)])
  original ++ [assistantMsg] ++ toolMsgs

/-- `BaseProvider.chat(messages, enable_reasoning)` (base.py:49-80), with
`_handle_tool_calls` re-entering `chat`; the fuel models Python's recursion
limit.  Returns the event trace alongside the result. -/
def chat {σ : Type} (ops : ProviderOps σ) : Nat → J → Bool → List Ev × Except PyErr ChatResp
  | 0, _, _ => ([], .error .recursionLimit)
  | fuel + 1, messages, enable_reasoning =>
    match validate_messages messages with
    | .error e => ([], .error (.validationError e))
    | .ok _ =>
      let req := ops.prepareRequest messages false enable_reasoning
      match ops.executeRequest req with
      | .error e => ([.prepared], .error (.providerError e))
      | .ok response =>
        match ops.parseResponse response enable_reasoning with
        | none => ([.prepared, .executed], .error .pyException)
        | some parsed =>
          if parsed.toolCalls.isEmpty then ([.prepared, .executed], .ok parsed)
          else
            match messages with
            | J.arr msgs =>
              let conversation :=
                handle_tool_calls_conversation ops.toolsByName msgs parsed
              let next := chat ops fuel (J.arr conversation) enable_reasoning
              (.prepared :: .executed :: next.1, next.2)
            | _ => ([.prepared, .executed], .error .pyException)

/-- Parse every raw stream chunk, threading the adapter state. -/
def parse_stream_all {σ : Type} (ops : ProviderOps σ) (enable_reasoning : Bool) :
    σ → List J → σ × Except PyErr (List StreamResp)
  | st, [] => (st, .ok [])
  | st, c :: cs =>
    match ops.parseStream st c enable_reasoning with
    | none => (st, .error .pyException)
    | some (st1, r) =>
      match parse_stream_all ops enable_reasoning st1 cs with
      | (st2, .ok rs) => (st2, .ok (r :: rs))
      | (st2, .error e) => (st2, .error e)

/-- `BaseProvider.chat_stream(messages, enable_reasoning)` (base.py:82-105),
fully forced: the trace, the adapter state after iteration, and the parsed
chunks (or the error ending the stream). -/
def chat_stream {σ : Type} (ops : ProviderOps σ) (st : σ) (messages : J)
    (enable_reasoning : Bool) : List Ev × σ × Except PyErr (List StreamResp) :=
  match validate_messages messages with
  | .error e => ([], st, .error (.validationError e))
  | .ok _ =>
    let req := ops.prepareRequest messages true enable_reasoning
    match ops.executeStreamRequest req with
    | .error e => ([.prepared], st, .error (.providerError e))
    | .ok chunks =>
      let out := parse_stream_all ops enable_reasoning st chunks
      ([.prepared, .executed], out.1, out.2)

/-! ## Theorems -/

/-- The three chunks of the streaming scenario, whose opening and closing
tags are split across chunk boundaries. -/
def splitTagDeltas : List Str :=
  ["<thi".data, "nk>reasoning here</thi".data, "nk>rest of answer".data]

/-- C1 (counterexample): feeding the deltas `"<thi"`,
`"nk>reasoning here</thi"`, `"nk>rest of answer"` through the stream
normalizer with reasoning enabled produces an empty concatenated reasoning
stream — it does not contain `"reasoning here"`, contrary to the claim:
no single delta contains a complete opening or closing tag, so the
per-delta lexical detection never enters reasoning mode. -/
theorem stream_split_tag_reasoning_empty :
    (runStream ⟨false⟩ (splitTagDeltas.map mkContentChunk)).map
        (fun p => concatReasoning p.2) = some []
      ∧ hasSub ([] : Str) "reasoning here".data = false :=
  ⟨rfl, rfl⟩

/-- C1 (amended): feeding the deltas `"<thi"`, `"nk>reasoning here</thi"`,
`"nk>rest of answer"` through the stream normalizer (reasoning enabled, no
native reasoning field) yields concatenated reasoning deltas that are empty
and concatenated content deltas equal to the full concatenated input — so
the content stream contains both `"reasoning here"` and `"rest of answer"`
and every character of the input (tags included) is conserved. -/
theorem stream_split_tag_text_conserved :
    (runStream ⟨false⟩ (splitTagDeltas.map mkContentChunk)).map
        (fun p => (concatContent p.2, concatReasoning p.2))
      = some ("<think>reasoning here</think>rest of answer".data, [])
    ∧ "<think>reasoning here</think>rest of answer".data
        = "<thi".data ++ "nk>reasoning here</thi".data ++ "nk>rest of answer".data
    ∧ hasSub "<think>reasoning here</think>rest of answer".data
        "rest of answer".data = true
    ∧ hasSub "<think>reasoning here</think>rest of answer".data
        "reasoning here".data = true :=
  ⟨rfl, rfl, rfl, rfl⟩

/-- C2: processing a single content chunk mutates the reasoning-mode flag
stored on the shared adapter instance (`self._in_reasoning_mode`), and the
mutated flag then misroutes an unrelated chunk of a second interleaved
stream: after stream A's `"<think>secret"` delta flips the shared flag,
stream B's plain `"hello"` delta is emitted as reasoning instead of
content.  This exhibits the cross-call corruption the claim rules out. -/
theorem stream_state_shared_across_calls :
    (parse_stream_response ⟨false⟩ (mkContentChunk "<think>secret".data) true).map
        (fun p => p.1.inReasoningMode) = some true
    ∧ (parse_stream_response ⟨true⟩ (mkContentChunk "hello".data) true).map
        (fun p => (p.2.delta, p.2.reasoningDelta)) = some ([], some "hello".data) :=
  ⟨rfl, rfl⟩

/-- C4 (counterexample): the Bedrock standardizer applied to an
already-canonical tool call returns the empty sequence — the canonical call
is dropped, not passed through, because only `toolUse`-shaped entries are
recognized. -/
theorem bedrock_standardize_drops_canonical :
    Bedrock.standardize_tool_calls
        [J.obj [("id".data, J.s "call_1".data), ("name".data, J.s "calc".data),
                ("arguments".data, J.s "\x7b\x7d".data)]]
      = some [] := rfl

/-- C4 (amended): for every already-canonical `{id, name, arguments}` tool
call, the OpenAI-compatible standardizer returns it unchanged (idempotent),
while the Bedrock standardizer returns the empty sequence. -/
theorem standardize_canonical_tool_call (idv nv av : J) :
    OpenAILike.standardize_tool_calls
        [J.obj [("id".data, idv), ("name".data, nv), ("arguments".data, av)]]
      = some [J.obj [("id".data, idv), ("name".data, nv), ("arguments".data, av)]]
    ∧ Bedrock.standardize_tool_calls
        [J.obj [("id".data, idv), ("name".data, nv), ("arguments".data, av)]]
      = some [] :=
  ⟨rfl, rfl⟩

/-- C5: message validation rejects well-formed `document` and `video`
content blocks with a `ValidationError` — only `text` and `image` types are
recognized — although the Bedrock adapter documents and implements
document/video multimodal support (`_convert_content_to_bedrock`), which
this validation (run by both `chat` entry points) makes unreachable. -/
theorem validate_messages_rejects_document_video :
    validate_messages (J.arr [J.obj [("role".data, J.s "user".data),
        ("content".data, J.arr [J.obj [("type".data, J.s "document".data),
          ("document_data".data, J.s "QUJD".data), ("format".data, J.s "txt".data),
          ("name".data, J.s "doc".data)]])]])
      = .error ("Message 0, content block 0 has unsupported type \x27document\x27".data)
    ∧ validate_messages (J.arr [J.obj [("role".data, J.s "user".data),
        ("content".data, J.arr [J.obj [("type".data, J.s "video".data),
          ("video_data".data, J.s "AAAA".data), ("format".data, J.s "mp4".data)]])]])
      = .error ("Message 0, content block 0 has unsupported type \x27video\x27".data) :=
  ⟨rfl, rfl⟩

/-- Plumbing reduction: on a response whose first choice's message is the
dict `mkvs`, the extractor is the message-level extraction on `mkvs`. -/
theorem extract_reasoning_content_first_message (rkvs chkvs mkvs : List (Str × J))
    (restChoices : List J)
    (hch : jLookup rkvs "choices".data = some (J.arr (J.obj chkvs :: restChoices)))
    (hmsg : jGet chkvs "message".data (J.obj []) = J.obj mkvs) :
    extract_reasoning_content (J.obj rkvs) = extract_from_message mkvs := by
  simp [extract_reasoning_content, hch, hmsg, jTruthy]

/-- C6: when the first choice's message carries a native reasoning field,
the extractor returns that field's value verbatim as the reasoning and the
separate `content` field unchanged, with no tag-pattern parsing:
`reasoning_content` wins over everything, and `thinking` wins whenever
`reasoning_content` is absent — regardless of what `content` holds. -/
theorem extract_native_reasoning_field (rkvs chkvs mkvs : List (Str × J))
    (restChoices : List J)
    (hch : jLookup rkvs "choices".data = some (J.arr (J.obj chkvs :: restChoices)))
    (hmsg : jGet chkvs "message".data (J.obj []) = J.obj mkvs) :
    (∀ rv, jLookup mkvs "reasoning_content".data = some rv →
      extract_reasoning_content (J.obj rkvs)
        = some (asOptStr (jGet mkvs "content".data (J.s [])), asOptStr rv))
    ∧ (jLookup mkvs "reasoning_content".data = none →
       ∀ tv, jLookup mkvs "thinking".data = some tv →
      extract_reasoning_content (J.obj rkvs)
        = some (asOptStr (jGet mkvs "content".data (J.s [])), asOptStr tv)) := by
  have hred := extract_reasoning_content_first_message rkvs chkvs mkvs restChoices hch hmsg
  constructor
  · intro rv hrv
    rw [hred]
    simp [extract_from_message, hasKey, hrv, jGet]
  · intro hnone tv htv
    rw [hred]
    simp [extract_from_message, hasKey, hnone, htv, jGet]

/-- The concrete response of the C6 witness: a native `reasoning_content`
field next to a `content` field that itself contains a think tag. -/
def nativeFieldResponse : List (Str × J) :=
  [("choices".data, J.arr [J.obj [("message".data,
      J.obj [("content".data, J.s "<think>a</think>b".data),
             ("reasoning_content".data, J.s "R".data)])]])]

/-- C6 (witness): on a concrete response with `reasoning_content = "R"` and
`content = "<think>a</think>b"`, extraction returns the native field and the
content verbatim — the embedded tag is not parsed. -/
theorem extract_native_reasoning_field_witness :
    extract_reasoning_content (J.obj nativeFieldResponse)
      = some (some "<think>a</think>b".data, some "R".data) := by
  have h := extract_native_reasoning_field nativeFieldResponse
    [("message".data, J.obj [("content".data, J.s "<think>a</think>b".data),
                             ("reasoning_content".data, J.s "R".data)])]
    [("content".data, J.s "<think>a</think>b".data),
     ("reasoning_content".data, J.s "R".data)]
    [] rfl rfl
  exact h.1 (J.s "R".data) rfl

/-- A failed substring test means `splitFirst` found nothing. -/
theorem splitFirst_eq_none_of_not_hasSub {s tag : Str} (h : hasSub s tag = false) :
    splitFirst tag s = none := by
  unfold hasSub at h
  cases hx : splitFirst tag s with
  | none => rfl
  | some v => rw [hx] at h; simp at h

/-- C3 (counterexample): for the content `" A<think>B</think>"` — exactly
one well-formed think pair — extraction returns final content `"A"`, not
the span-removed `" A"` the claim requires, and the leading space (a
character outside the tags) is lost: the source strips the remainder. -/
theorem extract_think_pair_loses_edge_whitespace :
    extract_reasoning_content (mkSimpleResponse " A<think>B</think>".data)
      = some (some "A".data, some "B".data)
    ∧ ("A".data : Str) ≠ " A".data
    ∧ ("A".data ++ "B".data).length ≠ (" A".data ++ "B".data).length :=
  ⟨rfl, by decide, by decide⟩

/-- C3 (amended): for every content holding exactly one well-formed
`<think>...</think>` pair — located by the decomposition
`pre ++ <think> ++ mid ++ </think> ++ suf` whose opening tag is the first in
the content (`h1`), whose closing tag is the first after it (`h2`) and with
no further opening tag afterwards (`h3`) — extraction returns the trimmed
interior as reasoning and the span-removed content **stripped of leading and
trailing whitespace** as final content; all characters outside the tags are
preserved except the whitespace removed by those two trims. -/
theorem extract_single_think_pair (pre mid suf : Str)
    (h1 : splitFirst "<think>".data
            (pre ++ "<think>".data ++ mid ++ "</think>".data ++ suf)
          = some (pre, mid ++ "</think>".data ++ suf))
    (h2 : splitFirst "</think>".data (mid ++ "</think>".data ++ suf)
          = some (mid, suf))
    (h3 : hasSub suf "<think>".data = false) :
    extract_reasoning_content
        (mkSimpleResponse (pre ++ "<think>".data ++ mid ++ "</think>".data ++ suf))
      = some (some (strip (pre ++ suf)), some (strip mid)) := by
  have hsearch : reSearch "<think>".data "</think>".data
      (pre ++ "<think>".data ++ mid ++ "</think>".data ++ suf)
      = some (pre, mid, suf) := by
    simp only [reSearch, h1, h2]
  have hstop : ∀ k, reSubFuel "<think>".data "</think>".data k suf = suf := by
    intro k
    cases k with
    | zero => rfl
    | succ k =>
      have hnone : reSearch "<think>".data "</think>".data suf = none := by
        simp only [reSearch, splitFirst_eq_none_of_not_hasSub h3]
      simp [reSubFuel, hnone]
  have hsub : reSub "<think>".data "</think>".data
      (pre ++ "<think>".data ++ mid ++ "</think>".data ++ suf) = pre ++ suf := by
    simp only [reSub, reSubFuel, hsearch, hstop]
  have hcne : (pre ++ "<think>".data ++ mid ++ "</think>".data ++ suf).isEmpty
      = false := by
    cases pre <;> rfl
  have htry : try_patterns reasoningPatterns
      (pre ++ "<think>".data ++ mid ++ "</think>".data ++ suf)
      = some (strip (pre ++ suf), strip mid) := by
    simp only [reasoningPatterns, try_patterns, hsearch, hsub]
  have hred : extract_reasoning_content
      (mkSimpleResponse (pre ++ "<think>".data ++ mid ++ "</think>".data ++ suf))
      = extract_from_message
          [("content".data,
            J.s (pre ++ "<think>".data ++ mid ++ "</think>".data ++ suf))] :=
    extract_reasoning_content_first_message _ _ _ _ rfl rfl
  rw [hred]
  have hmsg2 : extract_from_message
      [("content".data, J.s (pre ++ "<think>".data ++ mid ++ "</think>".data ++ suf))]
      = some (extract_from_content
          (pre ++ "<think>".data ++ mid ++ "</think>".data ++ suf)) := rfl
  rw [hmsg2]
  simp only [extract_from_content, hcne, htry]
  simp

/-- C3 (witness): for the content `"x <think> r </think> z"`, extraction
returns final content `"x  z"` (span removed, outer edges trimmed — here
nothing to trim) and reasoning `"r"` (interior trimmed). -/
theorem extract_single_think_pair_witness :
    extract_reasoning_content (mkSimpleResponse "x <think> r </think> z".data)
      = some (some "x  z".data, some "r".data) :=
  extract_single_think_pair "x ".data " r ".data " z".data
    (by decide) (by decide) (by decide)

/-- A list is a `isPrefixOf`-prefix of itself extended on the right. -/
theorem isPrefixOf_append_self (t b : Str) : t.isPrefixOf (t ++ b) = true := by
  induction t with
  | nil => cases b <;> rfl
  | cons c cs ih =>
    show ((c == c) && cs.isPrefixOf (cs ++ b)) = true
    simp [ih]

/-- `splitFirst` finds an occurrence placed anywhere in the string. -/
theorem splitFirst_isSome_middle (t a b : Str) :
    (splitFirst t (a ++ (t ++ b))).isSome = true := by
  induction a with
  | nil =>
    rw [List.nil_append]
    cases t with
    | nil => cases b <;> rfl
    | cons c cs =>
      have hpre := isPrefixOf_append_self (c :: cs) b
      rw [List.cons_append]
      rw [List.cons_append] at hpre
      unfold splitFirst
      rw [hpre]
      rfl
  | cons x xs ih =>
    rw [List.cons_append]
    unfold splitFirst
    cases hp : List.isPrefixOf t (x :: (xs ++ (t ++ b))) with
    | true => rfl
    | false =>
      cases hs : splitFirst t (xs ++ (t ++ b)) with
      | none => rw [hs] at ih; simp at ih
      | some v =>
        obtain ⟨p, s⟩ := v
        rfl

/-- The substring test succeeds on any string with the target in the
middle. -/
theorem hasSub_append_middle (a t b : Str) : hasSub (a ++ (t ++ b)) t = true := by
  unfold hasSub
  exact splitFirst_isSome_middle t a b

/-- A tool-call dict in the canonical shape, with string name, arguments
and id. -/
def mk_tool_call (nm args idv : Str) : J :=
  J.obj [("name".data, J.s nm), ("arguments".data, J.s args), ("id".data, J.s idv)]

/-- C7: the tool executor returns a string on every path and never
propagates an exception (its result type here is `Str`, with every raise of
the source body caught and converted): for a nonempty name and id, an
unknown tool yields a descriptive error string that mentions the tool name;
a failing execution — malformed JSON arguments, argument mismatch, or an
exception inside the tool, all surfaced as `execute_function_call` errors —
yields the `"Tool execution error: ..."` string; a successful execution
yields the tool's result. -/
theorem execute_handles_all_failures (reg : List (Str × PyTool)) (nm args idv : Str)
    (hname : nm ≠ []) (hid : idv ≠ []) :
    (ToolExecutor.lookup_tool reg nm = none →
      ToolExecutor.execute reg (mk_tool_call nm args idv)
        = "Error: Tool \x27".data ++ nm ++ ("\x27 not found. Available tools: ".data
            ++ join_comma (reg.map Prod.fst))
      ∧ hasSub (ToolExecutor.execute reg (mk_tool_call nm args idv)) nm = true)
    ∧ (∀ f e, ToolExecutor.lookup_tool reg nm = some f →
        execute_function_call f (J.s args) = .error e →
        ToolExecutor.execute reg (mk_tool_call nm args idv)
          = "Tool execution error: ".data ++ e)
    ∧ (∀ f r, ToolExecutor.lookup_tool reg nm = some f →
        execute_function_call f (J.s args) = .ok r →
        ToolExecutor.execute reg (mk_tool_call nm args idv) = r) := by
  obtain ⟨c, cs, rfl⟩ : ∃ c cs, nm = c :: cs := by
    cases nm with
    | nil => exact absurd rfl hname
    | cons c cs => exact ⟨c, cs, rfl⟩
  obtain ⟨d, ds, rfl⟩ : ∃ d ds, idv = d :: ds := by
    cases idv with
    | nil => exact absurd rfl hid
    | cons d ds => exact ⟨d, ds, rfl⟩
  have hexec : ToolExecutor.execute reg (mk_tool_call (c :: cs) args (d :: ds))
      = ToolExecutor.execute_resolved reg (c :: cs) (J.s args) := rfl
  refine ⟨?_, ?_, ?_⟩
  · intro hlk
    have heq : ToolExecutor.execute reg (mk_tool_call (c :: cs) args (d :: ds))
        = "Error: Tool \x27".data ++ (c :: cs)
            ++ ("\x27 not found. Available tools: ".data ++ join_comma (reg.map Prod.fst)) := by
      rw [hexec]
      simp [ToolExecutor.execute_resolved, hlk]
    refine ⟨heq, ?_⟩
    rw [heq, List.append_assoc]
    exact hasSub_append_middle _ _ _
  · intro f e hlk hcall
    rw [hexec]
    simp [ToolExecutor.execute_resolved, hlk, hcall]
  · intro f r hlk hcall
    rw [hexec]
    simp [ToolExecutor.execute_resolved, hlk, hcall]

/-- C7 (witness): an unknown tool name on an empty registry returns the
descriptive error string, which mentions the tool name. -/
theorem execute_handles_all_failures_witness :
    ToolExecutor.execute []
        (mk_tool_call "mystery_tool".data "\x7b\x7d".data "call_1".data)
      = "Error: Tool \x27mystery_tool\x27 not found. Available tools: ".data
    ∧ hasSub (ToolExecutor.execute []
        (mk_tool_call "mystery_tool".data "\x7b\x7d".data "call_1".data))
        "mystery_tool".data = true := by
  have h := (execute_handles_all_failures [] "mystery_tool".data "\x7b\x7d".data
    "call_1".data (by decide) (by decide)).1 rfl
  exact ⟨by rw [h.1]; rfl, h.2⟩

/-- C8: `execute_all` applied to a list of tool-call dicts returns exactly
one result message per call, in input order: each is a `role = "tool"`
message whose content is that call's `execute` result and whose
`tool_call_id` is the call's `id` (with the source's `"unknown"` default
when the id key is absent; the last conjunct specializes the id to the
call's own when present). -/
theorem execute_all_round_trip (reg : List (Str × PyTool)) (calls : List J)
    (h : ∀ tc ∈ calls, isObj tc = true) :
    ToolExecutor.execute_all reg calls = .ok (calls.map (tool_result_msg reg))
    ∧ (calls.map (tool_result_msg reg)).length = calls.length
    ∧ ∀ kvs idv, jLookup kvs "id".data = some idv →
        tool_result_msg reg (J.obj kvs)
          = J.obj [("role".data, J.s "tool".data),
                   ("content".data, J.s (ToolExecutor.execute reg (J.obj kvs))),
                   ("tool_call_id".data, idv)] := by
  refine ⟨?_, by simp, ?_⟩
  · induction calls with
    | nil => rfl
    | cons tc rest ih =>
      have hobj := h tc (by simp)
      have hrest : ∀ x ∈ rest, isObj x = true := fun x hx => h x (by simp [hx])
      cases tc with
      | obj kvs => simp [ToolExecutor.execute_all, ih hrest, tool_result_msg]
      | s v => simp [isObj] at hobj
      | i v => simp [isObj] at hobj
      | b v => simp [isObj] at hobj
      | null => simp [isObj] at hobj
      | arr vs => simp [isObj] at hobj
  · intro kvs idv hidv
    simp [tool_result_msg, jGet, hidv]

/-- C8 (witness): two concrete tool-call dicts produce exactly two ordered
`role = "tool"` result messages carrying the calls' ids. -/
theorem execute_all_round_trip_witness :
    ToolExecutor.execute_all []
        [mk_tool_call "a".data "\x7b\x7d".data "call_1".data,
         mk_tool_call "b".data "\x7b\x7d".data "call_2".data]
      = .ok ([mk_tool_call "a".data "\x7b\x7d".data "call_1".data,
              mk_tool_call "b".data "\x7b\x7d".data "call_2".data].map
               (tool_result_msg [])) :=
  (execute_all_round_trip [] _ (by decide)).1

/-- Association lookup in a name-keyed map built from a nodup parameter
list finds exactly the image of the looked-up parameter. -/
theorem lookup_map_by_name {β : Type} (g : PyParam → β) (ps : List PyParam)
    (p : PyParam) (hp : p ∈ ps) (hnd : (ps.map PyParam.name).Nodup) :
    (ps.map (fun q => (q.name, g q))).lookup p.name = some (g p) := by
  induction ps with
  | nil => cases hp
  | cons q rest ih =>
    rcases List.mem_cons.mp hp with rfl | hmem
    · simp [List.lookup]
    · have hnd' : (rest.map PyParam.name).Nodup := (List.nodup_cons.mp hnd).2
      have hne : (p.name == q.name) = false := by
        refine beq_eq_false_iff_ne.mpr (fun he => ?_)
        exact (List.nodup_cons.mp hnd).1
          (he ▸ List.mem_map_of_mem PyParam.name hmem)
      simp [List.lookup, hne, ih hmem hnd']

/-- C9: the function-schema extractor maps every (non-`self`) parameter of
a callable with nodup parameter names to a property whose type follows the
annotation table — `str → "string"`, `int → "integer"`, `float → "number"`,
`bool → "boolean"`, list-origin generics → `"array"`, dict-origin generics
→ `"object"`, `"string"` when unannotated — lists it as required exactly
when it has no default value, and defaults the description to
`"Function <name>"` when there is no docstring. -/
theorem extract_function_schema_rules (f : PyFunc) (p : PyParam)
    (hp : p ∈ f.params) (hself : (p.name == "self".data) = false)
    (hnd : (f.params.map PyParam.name).Nodup) :
    (extract_function_schema f).properties.lookup p.name
      = some { type := annotation_type p.hint,
               description := "Parameter ".data ++ p.name }
    ∧ (p.name ∈ (extract_function_schema f).required ↔ p.hasDefault = false)
    ∧ (f.doc = none →
        (extract_function_schema f).description = "Function ".data ++ f.name) := by
  have hsub : ((f.params.filter (fun q => !(q.name == "self".data))).map PyParam.name).Sublist
      (f.params.map PyParam.name) := (List.filter_sublist _).map _
  have hndf := hnd.sublist hsub
  have hpf : p ∈ f.params.filter (fun q => !(q.name == "self".data)) :=
    List.mem_filter.mpr ⟨hp, by simp [hself]⟩
  refine ⟨?_, ?_, ?_⟩
  · simpa [extract_function_schema] using
      lookup_map_by_name
        (fun q => ParamInfo.mk (annotation_type q.hint)
          ("Parameter ".data ++ q.name))
        (f.params.filter (fun q => !(q.name == "self".data))) p hpf hndf
  · constructor
    · intro hmem
      simp only [extract_function_schema, List.mem_map] at hmem
      obtain ⟨q, hq, hqname⟩ := hmem
      have hq1 := List.mem_filter.mp hq
      have hq2 := List.mem_filter.mp hq1.1
      have hqp : q = p := List.inj_on_of_nodup_map hnd hq2.1 hp hqname
      have := hq1.2
      rw [hqp] at this
      simpa using this
    · intro hdef
      simp only [extract_function_schema]
      refine List.mem_map_of_mem PyParam.name ?_
      exact List.mem_filter.mpr ⟨hpf, by simp [hdef]⟩
  · intro hdoc
    simp [extract_function_schema, hdoc]

/-- The concrete callable of the C9 witness: no docstring, a skipped
`self`, an annotated required `int` parameter and a defaulted list-generic
parameter. -/
def schemaWitnessFunc : PyFunc :=
  { name := "add_item".data,
    doc := none,
    params := [⟨"self".data, none, false⟩,
               ⟨"count".data, some .intA, false⟩,
               ⟨"tags".data, some (.generic .listO), true⟩] }

/-- C9 (witness): on the concrete callable, the `int` parameter becomes a
required `"integer"` property and the description defaults. -/
theorem extract_function_schema_rules_witness :
    (extract_function_schema schemaWitnessFunc).properties.lookup "count".data
      = some { type := "integer".data, description := "Parameter count".data }
    ∧ ("count".data ∈ (extract_function_schema schemaWitnessFunc).required
        ↔ false = false)
    ∧ (schemaWitnessFunc.doc = none →
        (extract_function_schema schemaWitnessFunc).description
          = "Function add_item".data) := by
  have h := extract_function_schema_rules schemaWitnessFunc
    ⟨"count".data, some .intA, false⟩ (by decide) (by decide) (by decide)
  exact h

/-- A provider-operations record with inert behavior, for exercising the
chat pipeline. -/
def trivialOps : ProviderOps Unit :=
  { prepareRequest := fun _ _ _ => J.null,
    executeRequest := fun _ => .ok J.null,
    executeStreamRequest := fun _ => .ok [],
    parseResponse := fun _ _ => none,
    parseStream := fun st _ _ =>
      some (st, { delta := [], reasoningDelta := none, isReasoningComplete := false,
                  isComplete := false, toolCalls := [] }),
    toolsByName := [] }

/-- C10: calling `chat` or `chat_stream` with an empty messages list or a
non-list messages argument raises a `ValidationError` before any provider
request is prepared or executed — the event trace is empty — and leaves the
adapter's stream-parsing state untouched (`chat_stream` returns the state it
was given).  (In the source, `chat_stream` is a generator, so the raise
occurs at the first iteration; it still precedes `_prepare_request`.) -/
theorem chat_rejects_invalid_messages {σ : Type} (ops : ProviderOps σ) (st : σ)
    (fuel : Nat) (messages : J) (er : Bool)
    (h : messages = J.arr [] ∨ ∀ l, messages ≠ J.arr l) :
    ∃ e, validate_messages messages = .error e
      ∧ chat ops (fuel + 1) messages er = ([], .error (.validationError e))
      ∧ chat_stream ops st messages er = ([], st, .error (.validationError e)) := by
  have hval : ∃ e, validate_messages messages = .error e := by
    rcases h with rfl | hnl
    · exact ⟨_, rfl⟩
    · cases messages with
      | arr l => exact absurd rfl (hnl l)
      | s v => exact ⟨_, rfl⟩
      | i v => exact ⟨_, rfl⟩
      | b v => exact ⟨_, rfl⟩
      | null => exact ⟨_, rfl⟩
      | obj kvs => exact ⟨_, rfl⟩
  obtain ⟨e, he⟩ := hval
  exact ⟨e, he, by simp [chat, he], by simp [chat_stream, he]⟩

/-- C10 (witness): the empty conversation is rejected by both entry points
with an untouched state and an empty trace. -/
theorem chat_rejects_invalid_messages_witness :
    ∃ e, validate_messages (J.arr []) = .error e
      ∧ chat trivialOps 1 (J.arr []) false = ([], .error (.validationError e))
      ∧ chat_stream trivialOps () (J.arr []) false
          = ([], (), .error (.validationError e)) :=
  chat_rejects_invalid_messages trivialOps () 0 (J.arr []) false (Or.inl rfl)

end ULLM
